import Mathlib

/-!
# Zep display adapter for Dear ImGui (`include/zep/imgui/display_imgui.h`)

A shallow embedding of the class `ZepDisplay_ImGui` and of the part of the
GUI toolkit it talks to.

Conventions of the embedding.

* C++ `float` values are exact rationals (`ℚ`); rounding is not modelled.
  Lean's `x / 0 = 0` stands in for the non-finite IEEE result of a division
  by zero, which no rational represents.
* `ImFont*` is an address (`Nat`), the null pointer being address `0`.
  Font objects live in a memory `ImFontPtr → ImFont`; `p->Field` is a lookup
  in that memory and `p->Field = v` an update at `p`. The memory is total:
  a lookup through the null pointer, undefined in C++, yields whatever the
  memory holds at address `0`.
* The window draw list and the font atlas are recorded as the sequence of
  calls made on them, in call order.
* A `(begin, end)` pair of `uint8_t*` is a `CharRange`: the bytes stored from
  `begin` onwards and the distance of `end` from `begin` (`none` for a null
  end pointer).
* `ZepFontType` has `n` enumerators before its `Count` sentinel; a logical
  font slot is a `Fin n`, and `m_fonts`, an array of size `Count`, is a
  function on `Fin n`.
* What the toolkit computes behind its interface (text measurement, range
  building, font loading, the font stack) is a parameter, `Externals`.
-/

namespace Zep

/-! ## Value types -/

/-- A two-component float vector of the editor (`NVec2f`). -/
structure NVec2f where
  x : ℚ
  y : ℚ
  deriving DecidableEq, Repr

/-- A four-component normalised colour of the editor (`NVec4f`). -/
structure NVec4f where
  x : ℚ
  y : ℚ
  z : ℚ
  w : ℚ
  deriving DecidableEq, Repr

/-- The editor rectangle type (`NRectf`), given by two corner points. -/
structure NRectf where
  topLeftPx : NVec2f
  bottomRightPx : NVec2f
  deriving DecidableEq, Repr

/-- Modelled from the spec: `NRectf::Width`, declared in the editor's math
header, which is not part of the adapter file. The spec describes the clip
rectangle by its top-left and bottom-right points and speaks of its width;
the width is the horizontal distance between the two corners. -/
def NRectf.Width (r : NRectf) : ℚ :=
  r.bottomRightPx.x - r.topLeftPx.x

/-- The toolkit's two-component float vector (`ImVec2`). -/
structure ImVec2 where
  x : ℚ
  y : ℚ
  deriving DecidableEq, Repr

/-- Conversion `toNVec2f` of the adapter file. -/
def toNVec2f (im : ImVec2) : NVec2f :=
  ⟨im.x, im.y⟩

/-- Conversion `toImVec2` of the adapter file. -/
def toImVec2 (im : NVec2f) : ImVec2 :=
  ⟨im.x, im.y⟩

/-- A toolkit wide character (`ImWchar`), a code point. -/
abbrev ImWchar := Nat

/-- A byte (`uint8_t`, or `char` after the cast the adapter applies). -/
abbrev Byte := Nat

/-- The static table `greek_range` of the adapter file. -/
def greek_range : List ImWchar :=
  [0x300, 0x52F, 0x1f00, 0x1fff, 0, 0]

/-- The largest finite `float` (`FLT_MAX`), as an exact rational. -/
def FLT_MAX : ℚ :=
  340282346638528859811704183484516925440

/-- A font address (`ImFont*`); `0` is the null pointer. -/
abbrev ImFontPtr := Nat

/-- The null font pointer. -/
def nullFont : ImFontPtr := 0

/-- The two fields of a toolkit font object that the adapter reads or writes. -/
structure ImFont where
  FontSize : ℚ
  Scale : ℚ
  deriving DecidableEq, Repr

/-- The two fields of `ImFontConfig` that the adapter assigns. -/
structure ImFontConfig where
  OversampleH : Int
  OversampleV : Int
  deriving DecidableEq, Repr

/-- A pair of byte pointers `(begin, end)`: the memory from `begin` onwards
and the offset of `end` from `begin`, `none` when `end` is null. -/
structure CharRange where
  mem : List Byte
  stop : Option Nat
  deriving DecidableEq, Repr

/-- Length of the zero-terminated string at the start of `mem` (`strlen`). -/
def strlen (mem : List Byte) : Nat :=
  (mem.takeWhile (fun b => b != 0)).length

/-- The bytes denoted by a pointer pair whose end pointer is not null. -/
def bytesBetween (mem : List Byte) (stop : Nat) : List Byte :=
  mem.take stop

/-- One call on the window draw list (`ImDrawList`). -/
inductive DrawCmd where
  | PushClipRect (clipMin clipMax : ImVec2)
  | PopClipRect
  | AddText (font : ImFontPtr) (fontSize : ℚ) (pos : ImVec2) (col : Nat) (text : List Byte)
  | AddLine (p1 p2 : ImVec2) (col : Nat) (thickness : ℚ)
  | AddRectFilled (pMin pMax : ImVec2) (col : Nat)
  deriving DecidableEq, Repr

/-- One call of `ImFontAtlas::AddFontFromFileTTF`, with its four arguments. -/
structure AtlasCall where
  filename : String
  sizePixels : ℚ
  cfg : ImFontConfig
  glyphRanges : List ImWchar
  deriving DecidableEq, Repr

/-- The state of the toolkit that the adapter can observe or change. -/
structure ImGuiContext where
  /-- The current font, the result of `ImGui::GetFont()`. -/
  Font : ImFontPtr
  /-- The memory holding the font objects. -/
  fontMem : ImFontPtr → ImFont
  /-- The calls made so far on the draw list of the current window. -/
  DrawList : List DrawCmd
  /-- The calls made so far on the font atlas `io.Fonts`. -/
  Fonts : List AtlasCall

/-- Behaviour that lies behind the interfaces the adapter calls and is not
defined in the adapter file. -/
structure Externals where
  /-- `ImFontAtlas::GetGlyphRangesDefault`. -/
  GetGlyphRangesDefault : List ImWchar
  /-- `ImFontAtlas::GetGlyphRangesCyrillic`. -/
  GetGlyphRangesCyrillic : List ImWchar
  /-- `ImFontGlyphRangesBuilder::BuildRanges`, applied to the ranges
  submitted so far, in submission order. -/
  BuildRanges : List (List ImWchar) → List ImWchar
  /-- `ImFont::CalcTextSizeA` of the font at the given address:
  size, maximal width, wrap width and text. -/
  CalcTextSizeA : ImFontPtr → ImFont → ℚ → ℚ → ℚ → CharRange → ImVec2
  /-- The handle `AddFontFromFileTTF` returns, given the earlier atlas calls
  and the present one. -/
  loadFont : List AtlasCall → AtlasCall → ImFontPtr
  /-- `ImGui::PushFont`. -/
  PushFont : ImGuiContext → ImFontPtr → ImGuiContext
  /-- `ImGui::PopFont`. -/
  PopFont : ImGuiContext → ImGuiContext
  /-- The editor's colour packing `ToPackedABGR`. -/
  ToPackedABGR : NVec4f → Nat

/-- The glyph range builder (`ImFontGlyphRangesBuilder`): the range tables
submitted so far. -/
abbrev ImFontGlyphRangesBuilder := List (List ImWchar)

/-- `ImFontGlyphRangesBuilder::AddRanges`. -/
def ImFontGlyphRangesBuilder.AddRanges (b : ImFontGlyphRangesBuilder)
    (ranges : List ImWchar) : ImFontGlyphRangesBuilder :=
  b ++ [ranges]

/-- `ImFontAtlas::AddFontFromFileTTF`: the call is recorded in the atlas and
the toolkit answers with a font handle. -/
def AddFontFromFileTTF (ext : Externals) (g : ImGuiContext) (filename : String)
    (sizePixels : ℚ) (cfg : ImFontConfig) (glyphRanges : List ImWchar) :
    ImFontPtr × ImGuiContext :=
  let call : AtlasCall := ⟨filename, sizePixels, cfg, glyphRanges⟩
  (ext.loadFont g.Fonts call, { g with Fonts := g.Fonts ++ [call] })

/-- The per-slot cache of character metrics kept by the base class; the
adapter touches its dirty flag only. -/
structure ZepFontCache where
  charCacheDirty : Bool
  deriving DecidableEq, Repr

/-! ## The adapter object -/

/-- The members of `ZepDisplay_ImGui`, preceded by the font caches it
inherits from `ZepDisplay`. -/
structure ZepDisplay_ImGui (n : Nat) where
  m_fontCache : Fin n → ZepFontCache
  m_clipRect : NRectf
  m_fontScale : ℚ
  m_ranges : List ImWchar
  m_builder : ImFontGlyphRangesBuilder
  m_fonts : Fin n → ImFontPtr

/-- The adapter together with the toolkit it draws through. -/
structure World (n : Nat) where
  display : ZepDisplay_ImGui n
  imgui : ImGuiContext

/-- Modelled from the spec: `ZepDisplay::GetFontCache`, a member of the base
class, whose header is not part of the adapter file. The spec says that
setting the point size marks the cached character metrics for that slot as
stale, so each logical slot has one cache and the accessor selects it. -/
def GetFontCache {n : Nat} (d : ZepDisplay_ImGui n) (type : Fin n) : ZepFontCache :=
  d.m_fontCache type

/-- The assignment `GetFontCache(type).charCacheDirty = true` through the
reference `GetFontCache` returns. -/
def markCharCacheDirty {n : Nat} (d : ZepDisplay_ImGui n) (type : Fin n) :
    ZepDisplay_ImGui n :=
  let cache : ZepFontCache := { d.m_fontCache type with charCacheDirty := true }
  { d with m_fontCache := Function.update d.m_fontCache type cache }

/-- The constructor `ZepDisplay_ImGui::ZepDisplay_ImGui`. The state of the
base class and the default-constructed clip rectangle come from headers
outside the adapter file and are arguments. -/
def ZepDisplay_ImGui.ctor (ext : Externals) (n : Nat)
    (fontCache0 : Fin n → ZepFontCache) (clipRect0 : NRectf) : ZepDisplay_ImGui n :=
  let b0 : ImFontGlyphRangesBuilder := []
  let b1 := b0.AddRanges ext.GetGlyphRangesDefault
  let b2 := b1.AddRanges ext.GetGlyphRangesCyrillic
  let b3 := b2.AddRanges greek_range
  { m_fontCache := fontCache0
    m_clipRect := clipRect0
    m_fontScale := 1
    m_ranges := ext.BuildRanges b3
    m_builder := b3
    m_fonts := fun _ => nullFont }

/-- `ZepDisplay_ImGui::GetFont`. -/
def GetFont {n : Nat} (d : ZepDisplay_ImGui n) (g : ImGuiContext) (type : Fin n) :
    ImFontPtr :=
  if d.m_fonts type ≠ nullFont then
    d.m_fonts type
  else
    g.Font

/-- `ZepDisplay_ImGui::GetFontPointSize`. -/
def GetFontPointSize {n : Nat} (d : ZepDisplay_ImGui n) (g : ImGuiContext)
    (type : Fin n) : ℚ :=
  (g.fontMem (GetFont d g type)).FontSize * (g.fontMem (GetFont d g type)).Scale

/-- `ZepDisplay_ImGui::SetFontPointSize`. -/
def SetFontPointSize {n : Nat} (w : World n) (type : Fin n) (size : ℚ) : World n :=
  let d := markCharCacheDirty w.display type
  let g := w.imgui
  let p := GetFont d g type
  let scale := size / (g.fontMem (GetFont d g type)).FontSize
  let font : ImFont := { g.fontMem p with Scale := scale }
  { display := d
    imgui := { g with fontMem := Function.update g.fontMem p font } }

/-- `ZepDisplay_ImGui::GetFontHeightPixels`. -/
def GetFontHeightPixels {n : Nat} (d : ZepDisplay_ImGui n) (g : ImGuiContext)
    (type : Fin n) : ℚ :=
  (g.fontMem (GetFont d g type)).FontSize * (g.fontMem (GetFont d g type)).Scale

/-- The one-character buffer `chDefault` with the range `(&chDefault, &chDefault + 1)`. -/
def chDefaultRange : CharRange :=
  ⟨['A'.toNat], some 1⟩

/-- `ZepDisplay_ImGui::GetTextSize`. -/
def GetTextSize {n : Nat} (ext : Externals) (d : ZepDisplay_ImGui n) (g : ImGuiContext)
    (type : Fin n) (text : CharRange) : NVec2f :=
  let font := GetFont d g type
  let font_size := (g.fontMem font).FontSize
  let text_size :=
    ext.CalcTextSizeA font (g.fontMem font) (font_size * (g.fontMem font).Scale)
      FLT_MAX FLT_MAX text
  let text_size :=
    if text_size.x = 0 then
      ext.CalcTextSizeA font (g.fontMem font) (font_size * (g.fontMem font).Scale)
        FLT_MAX FLT_MAX chDefaultRange
    else
      text_size
  toNVec2f text_size

/-- The byte range a draw call receives once a null end pointer has been
replaced by `text_begin + strlen(text_begin)`. -/
def resolveEnd (text : CharRange) : Nat :=
  match text.stop with
  | none => strlen text.mem
  | some e => e

/-- `ZepDisplay_ImGui::DrawChars`. -/
def DrawChars {n : Nat} (ext : Externals) (d : ZepDisplay_ImGui n) (g : ImGuiContext)
    (type : Fin n) (pos : NVec2f) (col : NVec4f) (text : CharRange) : ImGuiContext :=
  let text_end := resolveEnd text
  let prim := DrawCmd.AddText (GetFont d g type)
    ((g.fontMem (GetFont d g type)).Scale * (g.fontMem (GetFont d g type)).FontSize)
    (toImVec2 pos) (ext.ToPackedABGR col) (bytesBetween text.mem text_end)
  if d.m_clipRect.Width = 0 then
    { g with DrawList := g.DrawList ++ [prim] }
  else
    { g with DrawList := g.DrawList ++
        [DrawCmd.PushClipRect (toImVec2 d.m_clipRect.topLeftPx)
           (toImVec2 d.m_clipRect.bottomRightPx),
         prim,
         DrawCmd.PopClipRect] }

/-- `ZepDisplay_ImGui::DrawLine`. -/
def DrawLine {n : Nat} (ext : Externals) (d : ZepDisplay_ImGui n) (g : ImGuiContext)
    (start stop : NVec2f) (color : NVec4f) (width : ℚ) : ImGuiContext :=
  if d.m_clipRect.Width = 0 then
    { g with DrawList := g.DrawList ++
        [DrawCmd.AddLine (toImVec2 start) (toImVec2 stop) (ext.ToPackedABGR color) width] }
  else
    { g with DrawList := g.DrawList ++
        [DrawCmd.PushClipRect (toImVec2 d.m_clipRect.topLeftPx)
           (toImVec2 d.m_clipRect.bottomRightPx),
         DrawCmd.AddLine (toImVec2 start) (toImVec2 stop) (ext.ToPackedABGR color) width,
         DrawCmd.PopClipRect] }

/-- `ZepDisplay_ImGui::DrawRectFilled`. -/
def DrawRectFilled {n : Nat} (ext : Externals) (d : ZepDisplay_ImGui n) (g : ImGuiContext)
    (rc : NRectf) (color : NVec4f) : ImGuiContext :=
  if d.m_clipRect.Width = 0 then
    { g with DrawList := g.DrawList ++
        [DrawCmd.AddRectFilled (toImVec2 rc.topLeftPx) (toImVec2 rc.bottomRightPx)
           (ext.ToPackedABGR color)] }
  else
    { g with DrawList := g.DrawList ++
        [DrawCmd.PushClipRect (toImVec2 d.m_clipRect.topLeftPx)
           (toImVec2 d.m_clipRect.bottomRightPx),
         DrawCmd.AddRectFilled (toImVec2 rc.topLeftPx) (toImVec2 rc.bottomRightPx)
           (ext.ToPackedABGR color),
         DrawCmd.PopClipRect] }

/-- `ZepDisplay_ImGui::PushFont`. -/
def PushFont {n : Nat} (ext : Externals) (w : World n) (type : Fin n) : World n :=
  { w with imgui := ext.PushFont w.imgui (GetFont w.display w.imgui type) }

/-- `ZepDisplay_ImGui::PopFont`. -/
def PopFont {n : Nat} (ext : Externals) (w : World n) : World n :=
  { w with imgui := ext.PopFont w.imgui }

/-- `ZepDisplay_ImGui::SetClipRect`. -/
def SetClipRect {n : Nat} (w : World n) (rc : NRectf) : World n :=
  { w with display := { w.display with m_clipRect := rc } }

/-- `ZepDisplay_ImGui::AddFont`. The informational log line it writes is
not part of the state. -/
def AddFont {n : Nat} (ext : Externals) (w : World n) (type : Fin n) (pixelHeight : ℚ)
    (filePath : String) : World n :=
  let cfg : ImFontConfig := { OversampleH := 4, OversampleV := 4 }
  let r := AddFontFromFileTTF ext w.imgui filePath pixelHeight cfg w.display.m_ranges
  { display := { w.display with m_fonts := Function.update w.display.m_fonts type r.1 }
    imgui := r.2 }

/-! ## Sequences of adapter calls -/

/-- A call of one public member function of the adapter. -/
inductive Op (n : Nat) where
  | GetFont (type : Fin n)
  | GetFontPointSize (type : Fin n)
  | SetFontPointSize (type : Fin n) (size : ℚ)
  | GetFontHeightPixels (type : Fin n)
  | GetTextSize (type : Fin n) (text : CharRange)
  | DrawChars (type : Fin n) (pos : NVec2f) (col : NVec4f) (text : CharRange)
  | DrawLine (start stop : NVec2f) (color : NVec4f) (width : ℚ)
  | DrawRectFilled (rc : NRectf) (color : NVec4f)
  | PushFont (type : Fin n)
  | PopFont
  | SetClipRect (rc : NRectf)
  | AddFont (type : Fin n) (pixelHeight : ℚ) (filePath : String)

/-- The effect of one call on the adapter and the toolkit. The `const`
queries return a value and change nothing. -/
def step {n : Nat} (ext : Externals) (w : World n) : Op n → World n
  | .GetFont _ => w
  | .GetFontPointSize _ => w
  | .SetFontPointSize type size => SetFontPointSize w type size
  | .GetFontHeightPixels _ => w
  | .GetTextSize _ _ => w
  | .DrawChars type pos col text =>
      { w with imgui := DrawChars ext w.display w.imgui type pos col text }
  | .DrawLine start stop color width =>
      { w with imgui := DrawLine ext w.display w.imgui start stop color width }
  | .DrawRectFilled rc color =>
      { w with imgui := DrawRectFilled ext w.display w.imgui rc color }
  | .PushFont type => PushFont ext w type
  | .PopFont => PopFont ext w
  | .SetClipRect rc => SetClipRect w rc
  | .AddFont type pixelHeight filePath => AddFont ext w type pixelHeight filePath

/-- The effect of a sequence of calls, first call first. -/
def run {n : Nat} (ext : Externals) (w : World n) (ops : List (Op n)) : World n :=
  ops.foldl (step ext) w

/-- Whether a draw-list call is a text primitive. -/
def DrawCmd.isText : DrawCmd → Bool
  | .AddText _ _ _ _ _ => true
  | _ => false

/-- Whether a draw-list call pushes or pops a clip rectangle. -/
def DrawCmd.isClip : DrawCmd → Bool
  | .PushClipRect _ _ => true
  | .PopClipRect => true
  | _ => false

/-! ## Sample data -/

/-- A toolkit stand-in: the atlas hands out the addresses 1, 2, 3, ... in
load order and a null handle for the file `missing.ttf`; a text measures one
`size` per byte. -/
def sampleExt : Externals where
  GetGlyphRangesDefault := [0x20, 0xFF, 0]
  GetGlyphRangesCyrillic := [0x20, 0xFF, 0x400, 0x52F, 0x2DE0, 0x2DFF, 0xA640, 0xA69F, 0]
  BuildRanges := fun rs => rs.flatten
  CalcTextSizeA := fun _ _ size _ _ text =>
    ⟨size * ((bytesBetween text.mem (resolveEnd text)).length : ℚ), size⟩
  loadFont := fun calls call =>
    if call.filename = "missing.ttf" then nullFont else calls.length + 1
  PushFont := fun g font => { g with Font := font }
  PopFont := fun g => g
  ToPackedABGR := fun c => if c.w = 0 then 0 else 4278190080

/-- A toolkit state whose current font, at address 1, has base size 13 and
scale 1; the font at address 2 has base size 0. -/
def sampleContext : ImGuiContext where
  Font := 1
  fontMem := fun p => if p = 2 then ⟨0, 1⟩ else ⟨13, 1⟩
  DrawList := []
  Fonts := []

/-- A freshly constructed adapter with five logical font slots. -/
def sampleDisplay : ZepDisplay_ImGui 5 :=
  ZepDisplay_ImGui.ctor sampleExt 5 (fun _ => ⟨false⟩) ⟨⟨0, 0⟩, ⟨0, 0⟩⟩

/-- The fresh adapter in the sample toolkit state. -/
def sampleWorld : World 5 :=
  ⟨sampleDisplay, sampleContext⟩

/-- The sample adapter after two font loads: slot 0 holds the font at
address 1 and slot 1 the font at address 2, whose base size is 0. -/
def sampleLoaded : World 5 :=
  AddFont sampleExt (AddFont sampleExt sampleWorld 0 14 "a.ttf") 1 14 "b.ttf"

/-- The sample adapter after slot 0 was loaded from `a.ttf`, which the toolkit
answers with the font at address 1, its current font. -/
def sampleFirst : World 5 :=
  AddFont sampleExt sampleWorld 0 14 "a.ttf"

/-- A clip rectangle of width 100. -/
def sampleClip : NRectf :=
  ⟨⟨10, 20⟩, ⟨110, 220⟩⟩

/-! ## Frame lemmas for single calls -/

theorem step_m_fonts {n : Nat} (ext : Externals) (w : World n) (op : Op n) (slot : Fin n)
    (h : ∀ pixelHeight filePath, op ≠ Op.AddFont slot pixelHeight filePath) :
    (step ext w op).display.m_fonts slot = w.display.m_fonts slot := by
  cases op <;> try rfl
  case AddFont type pixelHeight filePath =>
    have hne : slot ≠ type := by
      intro e
      exact h pixelHeight filePath (by rw [e])
    simp [step, AddFont, Function.update_noteq hne]

theorem step_m_ranges {n : Nat} (ext : Externals) (w : World n) (op : Op n) :
    (step ext w op).display.m_ranges = w.display.m_ranges := by
  cases op <;> rfl

theorem step_m_clipRect {n : Nat} (ext : Externals) (w : World n) (op : Op n)
    (h : ∀ rc, op ≠ Op.SetClipRect rc) :
    (step ext w op).display.m_clipRect = w.display.m_clipRect := by
  cases op <;> try rfl
  case SetClipRect rc => exact absurd rfl (h rc)

theorem run_nil {n : Nat} (ext : Externals) (w : World n) : run ext w [] = w := rfl

theorem run_cons {n : Nat} (ext : Externals) (w : World n) (op : Op n) (ops : List (Op n)) :
    run ext w (op :: ops) = run ext (step ext w op) ops := rfl

theorem run_append {n : Nat} (ext : Externals) (w : World n) (ops₁ ops₂ : List (Op n)) :
    run ext w (ops₁ ++ ops₂) = run ext (run ext w ops₁) ops₂ := by
  simp [run, List.foldl_append]

theorem run_m_fonts {n : Nat} (ext : Externals) (ops : List (Op n)) (w : World n)
    (slot : Fin n)
    (h : ∀ pixelHeight filePath, Op.AddFont slot pixelHeight filePath ∉ ops) :
    (run ext w ops).display.m_fonts slot = w.display.m_fonts slot := by
  induction ops generalizing w with
  | nil => rfl
  | cons op ops ih =>
    rw [run_cons, ih]
    · apply step_m_fonts
      intro pixelHeight filePath e
      exact h pixelHeight filePath (by simp [e])
    · intro pixelHeight filePath hmem
      exact h pixelHeight filePath (List.mem_cons_of_mem _ hmem)

theorem run_m_ranges {n : Nat} (ext : Externals) (ops : List (Op n)) (w : World n) :
    (run ext w ops).display.m_ranges = w.display.m_ranges := by
  induction ops generalizing w with
  | nil => rfl
  | cons op ops ih => rw [run_cons, ih, step_m_ranges]

theorem run_m_clipRect {n : Nat} (ext : Externals) (ops : List (Op n)) (w : World n)
    (h : ∀ rc, Op.SetClipRect rc ∉ ops) :
    (run ext w ops).display.m_clipRect = w.display.m_clipRect := by
  induction ops generalizing w with
  | nil => rfl
  | cons op ops ih =>
    rw [run_cons, ih]
    · apply step_m_clipRect
      intro rc e
      exact h rc (by simp [e])
    · intro rc hmem
      exact h rc (List.mem_cons_of_mem _ hmem)

/-! ## Font resolution -/

/-- C1. On an adapter that was freshly constructed and then used through any
calls none of which is `AddFont` for the slot, `GetFont` of that slot is the
toolkit's current font. In every state, a slot whose stored handle is not
null resolves to exactly that handle, a slot whose stored handle is null
resolves to the toolkit's current font rather than to the null entry, and
the result is not null whenever the toolkit's current font is not null. -/
theorem GetFont_resolves {n : Nat} (ext : Externals) (fontCache0 : Fin n → ZepFontCache)
    (clipRect0 : NRectf) (g0 : ImGuiContext) (ops : List (Op n)) (w : World n)
    (slot : Fin n) :
    ((∀ pixelHeight filePath, Op.AddFont slot pixelHeight filePath ∉ ops) →
      GetFont (run ext ⟨ZepDisplay_ImGui.ctor ext n fontCache0 clipRect0, g0⟩ ops).display
          (run ext ⟨ZepDisplay_ImGui.ctor ext n fontCache0 clipRect0, g0⟩ ops).imgui slot
        = (run ext ⟨ZepDisplay_ImGui.ctor ext n fontCache0 clipRect0, g0⟩ ops).imgui.Font)
    ∧ (w.display.m_fonts slot ≠ nullFont →
        GetFont w.display w.imgui slot = w.display.m_fonts slot)
    ∧ (w.display.m_fonts slot = nullFont →
        GetFont w.display w.imgui slot = w.imgui.Font)
    ∧ (w.imgui.Font ≠ nullFont → GetFont w.display w.imgui slot ≠ nullFont) := by
  refine ⟨?_, ?_, ?_, ?_⟩
  · intro h
    have hm := run_m_fonts ext ops ⟨ZepDisplay_ImGui.ctor ext n fontCache0 clipRect0, g0⟩ slot h
    have h0 : (ZepDisplay_ImGui.ctor ext n fontCache0 clipRect0).m_fonts slot = nullFont := rfl
    simp only [h0] at hm
    simp [GetFont, hm]
  · intro h
    simp [GetFont, h]
  · intro h
    simp [GetFont, h]
  · intro h
    unfold GetFont
    split
    · assumption
    · exact h

/-- Witness for C1: the fresh sample adapter after a clip, a draw, a load into
slot 0 and a resize of slot 1 still resolves slot 3 to the current font. -/
theorem GetFont_resolves_witness :
    GetFont
        (run sampleExt sampleWorld
          [Op.SetClipRect sampleClip, Op.DrawLine ⟨0, 0⟩ ⟨1, 1⟩ ⟨1, 1, 1, 1⟩ 1,
           Op.AddFont 0 14 "a.ttf", Op.SetFontPointSize 1 20]).display
        (run sampleExt sampleWorld
          [Op.SetClipRect sampleClip, Op.DrawLine ⟨0, 0⟩ ⟨1, 1⟩ ⟨1, 1, 1, 1⟩ 1,
           Op.AddFont 0 14 "a.ttf", Op.SetFontPointSize 1 20]).imgui 3
      = (run sampleExt sampleWorld
          [Op.SetClipRect sampleClip, Op.DrawLine ⟨0, 0⟩ ⟨1, 1⟩ ⟨1, 1, 1, 1⟩ 1,
           Op.AddFont 0 14 "a.ttf", Op.SetFontPointSize 1 20]).imgui.Font
    ∧ GetFont (AddFont sampleExt sampleWorld 0 14 "a.ttf").display
        (AddFont sampleExt sampleWorld 0 14 "a.ttf").imgui 0 = 1 :=
  ⟨(GetFont_resolves sampleExt (fun _ => ⟨false⟩) ⟨⟨0, 0⟩, ⟨0, 0⟩⟩ sampleContext
      [Op.SetClipRect sampleClip, Op.DrawLine ⟨0, 0⟩ ⟨1, 1⟩ ⟨1, 1, 1, 1⟩ 1,
       Op.AddFont 0 14 "a.ttf", Op.SetFontPointSize 1 20] sampleWorld 3).1
      (by intro pixelHeight filePath hmem; simp at hmem),
   ((GetFont_resolves sampleExt (fun _ => ⟨false⟩) ⟨⟨0, 0⟩, ⟨0, 0⟩⟩ sampleContext []
      (AddFont sampleExt sampleWorld 0 14 "a.ttf") 0).2.1 (by decide)).trans (by decide)⟩

/-! ## Point size -/

theorem SetFontPointSize_GetFont {n : Nat} (w : World n) (type slot : Fin n) (size : ℚ) :
    GetFont (SetFontPointSize w type size).display (SetFontPointSize w type size).imgui slot
      = GetFont w.display w.imgui slot := rfl

theorem SetFontPointSize_fontMem {n : Nat} (w : World n) (type : Fin n) (size : ℚ) :
    (SetFontPointSize w type size).imgui.fontMem
      = Function.update w.imgui.fontMem (GetFont w.display w.imgui type)
          ⟨(w.imgui.fontMem (GetFont w.display w.imgui type)).FontSize,
           size / (w.imgui.fontMem (GetFont w.display w.imgui type)).FontSize⟩ := rfl

theorem GetFontPointSize_eq {n : Nat} (d : ZepDisplay_ImGui n) (g : ImGuiContext)
    (type : Fin n) :
    GetFontPointSize d g type
      = (g.fontMem (GetFont d g type)).FontSize * (g.fontMem (GetFont d g type)).Scale := rfl

/-- C2, the claim as stated fails: in the sample adapter slot 1 resolves to a
font whose base size is 0, and after setting its point size to 14 the point
size read back is not 14. -/
theorem SetFontPointSize_roundtrip_fails :
    (0 : ℚ) < 14 ∧
    GetFontPointSize (SetFontPointSize sampleLoaded 1 14).display
      (SetFontPointSize sampleLoaded 1 14).imgui 1 ≠ 14 := by
  refine ⟨by norm_num, ?_⟩
  have h : GetFont sampleLoaded.display sampleLoaded.imgui 1 = 2 := by decide
  rw [GetFontPointSize_eq, SetFontPointSize_GetFont, SetFontPointSize_fontMem, h]
  simp [sampleLoaded, AddFont, AddFontFromFileTTF, sampleWorld, sampleContext]

/-- C2, amended. For every slot whose resolved font has a non-zero base
`FontSize`, whatever its prior `Scale`, and every size `s`, setting the point
size to `s` and reading it back gives `s`. -/
theorem SetFontPointSize_roundtrip {n : Nat} (w : World n) (slot : Fin n) (s : ℚ)
    (h : (w.imgui.fontMem (GetFont w.display w.imgui slot)).FontSize ≠ 0) :
    GetFontPointSize (SetFontPointSize w slot s).display
      (SetFontPointSize w slot s).imgui slot = s := by
  rw [GetFontPointSize_eq, SetFontPointSize_GetFont, SetFontPointSize_fontMem]
  simp only [Function.update_same]
  field_simp

/-- Witness for C2: slot 0 of the sample adapter resolves to a font of base
size 13; set to 14 it reads back 14. -/
theorem SetFontPointSize_roundtrip_witness :
    GetFontPointSize (SetFontPointSize sampleLoaded 0 14).display
      (SetFontPointSize sampleLoaded 0 14).imgui 0 = 14 :=
  SetFontPointSize_roundtrip sampleLoaded 0 14 (by
    have h : GetFont sampleLoaded.display sampleLoaded.imgui 0 = 1 := by decide
    rw [h]
    simp [sampleLoaded, AddFont, AddFontFromFileTTF, sampleWorld, sampleContext])

/-- C7. `SetFontPointSize(slot, size)` sets the `Scale` of the font that
`GetFont(slot)` resolves to to `size / FontSize` of that font, keeps its
`FontSize`, sets `charCacheDirty` of the font cache of the same slot, and the
slot resolves to the same font afterwards. -/
theorem SetFontPointSize_effect {n : Nat} (w : World n) (slot : Fin n) (size : ℚ) :
    ((SetFontPointSize w slot size).imgui.fontMem (GetFont w.display w.imgui slot)).Scale
        = size / (w.imgui.fontMem (GetFont w.display w.imgui slot)).FontSize
    ∧ ((SetFontPointSize w slot size).imgui.fontMem (GetFont w.display w.imgui slot)).FontSize
        = (w.imgui.fontMem (GetFont w.display w.imgui slot)).FontSize
    ∧ (GetFontCache (SetFontPointSize w slot size).display slot).charCacheDirty = true
    ∧ GetFont (SetFontPointSize w slot size).display (SetFontPointSize w slot size).imgui slot
        = GetFont w.display w.imgui slot := by
  refine ⟨?_, ?_, ?_, rfl⟩
  · rw [SetFontPointSize_fontMem, Function.update_same]
  · rw [SetFontPointSize_fontMem, Function.update_same]
  · simp [SetFontPointSize, GetFontCache, markCharCacheDirty]

/-- C9. `SetFontPointSize` acts on the resolved font object, not on the slot.
`SetFontPointSize(S, s)` writes `Scale = s / FontSize` into the font that
`GetFont(S)` resolves to and leaves every other font object as it was; every
slot resolves to the same handle as before. Hence the new point size of `S`
is `FontSize * (s / FontSize)` of its resolved font, which is `s` when that
`FontSize` is not zero; a slot `T` that resolves to the handle of `S`, in
particular when the stored handles of both are null, has that same new point
size; a slot `T` that resolves to another handle keeps its point size. -/
theorem SetFontPointSize_aliasing {n : Nat} (w : World n) (S T : Fin n) (s : ℚ) :
    GetFont (SetFontPointSize w S s).display (SetFontPointSize w S s).imgui T
        = GetFont w.display w.imgui T
    ∧ ((SetFontPointSize w S s).imgui.fontMem (GetFont w.display w.imgui S)).Scale
        = s / (w.imgui.fontMem (GetFont w.display w.imgui S)).FontSize
    ∧ (∀ p, p ≠ GetFont w.display w.imgui S →
        (SetFontPointSize w S s).imgui.fontMem p = w.imgui.fontMem p)
    ∧ GetFontPointSize (SetFontPointSize w S s).display (SetFontPointSize w S s).imgui S
        = (w.imgui.fontMem (GetFont w.display w.imgui S)).FontSize
          * (s / (w.imgui.fontMem (GetFont w.display w.imgui S)).FontSize)
    ∧ ((w.imgui.fontMem (GetFont w.display w.imgui S)).FontSize ≠ 0 →
        GetFontPointSize (SetFontPointSize w S s).display (SetFontPointSize w S s).imgui S = s)
    ∧ (GetFont w.display w.imgui T = GetFont w.display w.imgui S →
        GetFontPointSize (SetFontPointSize w S s).display (SetFontPointSize w S s).imgui T
          = GetFontPointSize (SetFontPointSize w S s).display (SetFontPointSize w S s).imgui S
        ∧ GetFontPointSize (SetFontPointSize w S s).display (SetFontPointSize w S s).imgui T
          = (w.imgui.fontMem (GetFont w.display w.imgui S)).FontSize
            * (s / (w.imgui.fontMem (GetFont w.display w.imgui S)).FontSize)
        ∧ ((w.imgui.fontMem (GetFont w.display w.imgui S)).FontSize ≠ 0 →
            GetFontPointSize (SetFontPointSize w S s).display
              (SetFontPointSize w S s).imgui T = s))
    ∧ (w.display.m_fonts S = nullFont → w.display.m_fonts T = nullFont →
        GetFontPointSize (SetFontPointSize w S s).display (SetFontPointSize w S s).imgui T
          = GetFontPointSize (SetFontPointSize w S s).display (SetFontPointSize w S s).imgui S
        ∧ GetFontPointSize (SetFontPointSize w S s).display (SetFontPointSize w S s).imgui T
          = (w.imgui.fontMem w.imgui.Font).FontSize
            * (s / (w.imgui.fontMem w.imgui.Font).FontSize)
        ∧ ((w.imgui.fontMem w.imgui.Font).FontSize ≠ 0 →
            GetFontPointSize (SetFontPointSize w S s).display
              (SetFontPointSize w S s).imgui T = s))
    ∧ (GetFont w.display w.imgui T ≠ GetFont w.display w.imgui S →
        GetFontPointSize (SetFontPointSize w S s).display (SetFontPointSize w S s).imgui T
          = GetFontPointSize w.display w.imgui T) := by
  have hS : GetFontPointSize (SetFontPointSize w S s).display (SetFontPointSize w S s).imgui S
      = (w.imgui.fontMem (GetFont w.display w.imgui S)).FontSize
        * (s / (w.imgui.fontMem (GetFont w.display w.imgui S)).FontSize) := by
    rw [GetFontPointSize_eq, SetFontPointSize_GetFont, SetFontPointSize_fontMem,
      Function.update_same]
  have hexact : ∀ F : ℚ, F ≠ 0 → F * (s / F) = s := by
    intro F hF
    field_simp
  have hT : GetFont w.display w.imgui T = GetFont w.display w.imgui S →
      GetFontPointSize (SetFontPointSize w S s).display (SetFontPointSize w S s).imgui T
        = GetFontPointSize (SetFontPointSize w S s).display (SetFontPointSize w S s).imgui S := by
    intro h
    rw [GetFontPointSize_eq, GetFontPointSize_eq, SetFontPointSize_GetFont,
      SetFontPointSize_GetFont, h]
  refine ⟨rfl, ?_, ?_, hS, ?_, ?_, ?_, ?_⟩
  · rw [SetFontPointSize_fontMem, Function.update_same]
  · intro p hp
    rw [SetFontPointSize_fontMem, Function.update_noteq hp]
  · intro hF
    rw [hS, hexact _ hF]
  · intro h
    refine ⟨hT h, ?_, ?_⟩
    · rw [hT h, hS]
    · intro hF
      rw [hT h, hS, hexact _ hF]
  · intro hnS hnT
    have hgS : GetFont w.display w.imgui S = w.imgui.Font := by
      simp [GetFont, hnS]
    have hgT : GetFont w.display w.imgui T = w.imgui.Font := by
      simp [GetFont, hnT]
    have h : GetFont w.display w.imgui T = GetFont w.display w.imgui S := by
      rw [hgS, hgT]
    refine ⟨hT h, ?_, ?_⟩
    · rw [hT h, hS, hgS]
    · intro hF
      rw [hT h, hS, hgS, hexact _ hF]
  · intro h
    rw [GetFontPointSize_eq, GetFontPointSize_eq, SetFontPointSize_GetFont,
      SetFontPointSize_fontMem, Function.update_noteq h]

/-- Witness for C9: in the fresh sample adapter slots 2 and 3 both fall back
to the current font, of point size 13; `SetFontPointSize(2, 20)` makes the
point size of slot 3 equal to 20. In the loaded sample adapter slot 0
resolves to another font than slot 1 and keeps its point size 13 when slot 1
is resized. -/
theorem SetFontPointSize_aliasing_witness :
    GetFontPointSize sampleWorld.display sampleWorld.imgui 3 = 13
    ∧ GetFontPointSize (SetFontPointSize sampleWorld 2 20).display
        (SetFontPointSize sampleWorld 2 20).imgui 3 = 20
    ∧ GetFontPointSize (SetFontPointSize sampleWorld 2 20).display
        (SetFontPointSize sampleWorld 2 20).imgui 2 = 20
    ∧ GetFontPointSize (SetFontPointSize sampleLoaded 1 20).display
        (SetFontPointSize sampleLoaded 1 20).imgui 0 = 13 :=
  ⟨by
      have h : GetFont sampleWorld.display sampleWorld.imgui 3 = 1 := by decide
      rw [GetFontPointSize_eq, h]
      simp [sampleWorld, sampleContext],
   ((SetFontPointSize_aliasing sampleWorld 2 3 20).2.2.2.2.2.2.1 (by decide) (by decide)).2.2
      (by simp [sampleWorld, sampleContext]),
   (SetFontPointSize_aliasing sampleWorld 2 3 20).2.2.2.2.1 (by
      have h : GetFont sampleWorld.display sampleWorld.imgui 2 = 1 := by decide
      rw [h]
      simp [sampleWorld, sampleContext]),
   ((SetFontPointSize_aliasing sampleLoaded 1 0 20).2.2.2.2.2.2.2 (by decide)).trans (by
      have h : GetFont sampleLoaded.display sampleLoaded.imgui 0 = 1 := by decide
      rw [GetFontPointSize_eq, h]
      simp [sampleLoaded, AddFont, AddFontFromFileTTF, sampleWorld, sampleContext])⟩

/-! ## Measuring and drawing -/

/-- C3. `GetTextSize` measures the range with the resolved font at size
`FontSize * Scale`. Whenever that measured width is exactly zero, as for an
empty range or one of unsupported glyphs, the result is the toolkit's
measurement of the one-character text `A` with the same font and size;
whenever the measured width is not zero the result is the measurement of the
range itself. -/
theorem GetTextSize_fallback {n : Nat} (ext : Externals) (d : ZepDisplay_ImGui n)
    (g : ImGuiContext) (slot : Fin n) (text : CharRange) :
    ((ext.CalcTextSizeA (GetFont d g slot) (g.fontMem (GetFont d g slot))
          ((g.fontMem (GetFont d g slot)).FontSize * (g.fontMem (GetFont d g slot)).Scale)
          FLT_MAX FLT_MAX text).x = 0 →
      GetTextSize ext d g slot text
        = toNVec2f (ext.CalcTextSizeA (GetFont d g slot) (g.fontMem (GetFont d g slot))
            ((g.fontMem (GetFont d g slot)).FontSize * (g.fontMem (GetFont d g slot)).Scale)
            FLT_MAX FLT_MAX ⟨[65], some 1⟩))
    ∧ ((ext.CalcTextSizeA (GetFont d g slot) (g.fontMem (GetFont d g slot))
          ((g.fontMem (GetFont d g slot)).FontSize * (g.fontMem (GetFont d g slot)).Scale)
          FLT_MAX FLT_MAX text).x ≠ 0 →
      GetTextSize ext d g slot text
        = toNVec2f (ext.CalcTextSizeA (GetFont d g slot) (g.fontMem (GetFont d g slot))
            ((g.fontMem (GetFont d g slot)).FontSize * (g.fontMem (GetFont d g slot)).Scale)
            FLT_MAX FLT_MAX text)) := by
  constructor
  · intro h
    simp only [GetTextSize, h, if_true]
    rfl
  · intro h
    simp only [GetTextSize, h, if_false]

/-- Witness for C3: with the sample toolkit the empty range measures width 0
and `GetTextSize` answers with the size of `A`, 13 by 13; the two-byte text
`hi` measures 26 by 13 and is returned as measured. -/
theorem GetTextSize_fallback_witness :
    GetTextSize sampleExt sampleWorld.display sampleWorld.imgui 0 ⟨[], some 0⟩ = ⟨13, 13⟩
    ∧ GetTextSize sampleExt sampleWorld.display sampleWorld.imgui 0 ⟨[104, 105, 0], none⟩
        = ⟨26, 13⟩ :=
  ⟨((GetTextSize_fallback sampleExt sampleWorld.display sampleWorld.imgui 0
        ⟨[], some 0⟩).1 (by
          simp [sampleExt, bytesBetween, resolveEnd])).trans (by
          have h : GetFont sampleWorld.display sampleWorld.imgui 0 = 1 := by decide
          rw [h]
          simp [sampleExt, sampleWorld, sampleContext, bytesBetween, resolveEnd, toNVec2f]),
   ((GetTextSize_fallback sampleExt sampleWorld.display sampleWorld.imgui 0
        ⟨[104, 105, 0], none⟩).2 (by
          have h : GetFont sampleWorld.display sampleWorld.imgui 0 = 1 := by decide
          rw [h]
          simp [sampleExt, sampleWorld, sampleContext, bytesBetween, resolveEnd, strlen]
          decide)).trans (by
          have h : GetFont sampleWorld.display sampleWorld.imgui 0 = 1 := by decide
          rw [h]
          simp [sampleExt, sampleWorld, sampleContext, bytesBetween, resolveEnd, strlen,
            toNVec2f]
          norm_num)⟩

theorem take_strlen (mem : List Byte) :
    bytesBetween mem (strlen mem) = mem.takeWhile (fun b => b != 0) := by
  unfold bytesBetween strlen
  exact (List.prefix_iff_eq_take.mp (List.takeWhile_prefix _)).symm

theorem bytesBetween_resolveEnd (text : CharRange) :
    bytesBetween text.mem (resolveEnd text)
      = (match text.stop with
         | none => text.mem.takeWhile (fun b => b != 0)
         | some e => text.mem.take e) := by
  unfold resolveEnd
  cases text.stop with
  | none => exact take_strlen text.mem
  | some e => rfl

/-- C4. Each of `DrawChars`, `DrawLine` and `DrawRectFilled` appends to the
draw list, when the current clip rectangle has non-zero width, exactly
`PushClipRect` with the corners of the current clip rectangle, the one
primitive, and `PopClipRect`; when the clip rectangle has zero width it
appends exactly the one primitive. -/
theorem draw_clip_wrapping {n : Nat} (ext : Externals) (d : ZepDisplay_ImGui n)
    (g : ImGuiContext) (type : Fin n) (pos : NVec2f) (col : NVec4f) (text : CharRange)
    (start stop : NVec2f) (color : NVec4f) (width : ℚ) (rc : NRectf) (fill : NVec4f) :
    (d.m_clipRect.Width ≠ 0 →
      (DrawChars ext d g type pos col text).DrawList
          = g.DrawList ++
            [DrawCmd.PushClipRect (toImVec2 d.m_clipRect.topLeftPx)
               (toImVec2 d.m_clipRect.bottomRightPx),
             DrawCmd.AddText (GetFont d g type)
               ((g.fontMem (GetFont d g type)).Scale * (g.fontMem (GetFont d g type)).FontSize)
               (toImVec2 pos) (ext.ToPackedABGR col)
               (bytesBetween text.mem (resolveEnd text)),
             DrawCmd.PopClipRect]
      ∧ (DrawLine ext d g start stop color width).DrawList
          = g.DrawList ++
            [DrawCmd.PushClipRect (toImVec2 d.m_clipRect.topLeftPx)
               (toImVec2 d.m_clipRect.bottomRightPx),
             DrawCmd.AddLine (toImVec2 start) (toImVec2 stop) (ext.ToPackedABGR color) width,
             DrawCmd.PopClipRect]
      ∧ (DrawRectFilled ext d g rc fill).DrawList
          = g.DrawList ++
            [DrawCmd.PushClipRect (toImVec2 d.m_clipRect.topLeftPx)
               (toImVec2 d.m_clipRect.bottomRightPx),
             DrawCmd.AddRectFilled (toImVec2 rc.topLeftPx) (toImVec2 rc.bottomRightPx)
               (ext.ToPackedABGR fill),
             DrawCmd.PopClipRect])
    ∧ (d.m_clipRect.Width = 0 →
      (DrawChars ext d g type pos col text).DrawList
          = g.DrawList ++
            [DrawCmd.AddText (GetFont d g type)
               ((g.fontMem (GetFont d g type)).Scale * (g.fontMem (GetFont d g type)).FontSize)
               (toImVec2 pos) (ext.ToPackedABGR col)
               (bytesBetween text.mem (resolveEnd text))]
      ∧ (DrawLine ext d g start stop color width).DrawList
          = g.DrawList ++
            [DrawCmd.AddLine (toImVec2 start) (toImVec2 stop) (ext.ToPackedABGR color) width]
      ∧ (DrawRectFilled ext d g rc fill).DrawList
          = g.DrawList ++
            [DrawCmd.AddRectFilled (toImVec2 rc.topLeftPx) (toImVec2 rc.bottomRightPx)
               (ext.ToPackedABGR fill)]) := by
  constructor
  · intro h
    simp [DrawChars, DrawLine, DrawRectFilled, h]
  · intro h
    simp [DrawChars, DrawLine, DrawRectFilled, h]

/-- Witness for C4: a line drawn by the sample adapter after `SetClipRect`
with a rectangle of width 100 is wrapped in one push and one pop; drawn by
the fresh adapter, whose clip rectangle has width 0, it is not wrapped. -/
theorem draw_clip_wrapping_witness :
    (DrawLine sampleExt (SetClipRect sampleWorld sampleClip).display sampleContext
        ⟨0, 0⟩ ⟨5, 5⟩ ⟨1, 1, 1, 1⟩ 2).DrawList
      = [DrawCmd.PushClipRect ⟨10, 20⟩ ⟨110, 220⟩,
         DrawCmd.AddLine ⟨0, 0⟩ ⟨5, 5⟩ 4278190080 2,
         DrawCmd.PopClipRect]
    ∧ (DrawLine sampleExt sampleWorld.display sampleContext
        ⟨0, 0⟩ ⟨5, 5⟩ ⟨1, 1, 1, 1⟩ 2).DrawList
      = [DrawCmd.AddLine ⟨0, 0⟩ ⟨5, 5⟩ 4278190080 2] :=
  ⟨((draw_clip_wrapping sampleExt (SetClipRect sampleWorld sampleClip).display
        sampleContext 0 ⟨0, 0⟩ ⟨1, 1, 1, 1⟩ ⟨[], none⟩ ⟨0, 0⟩ ⟨5, 5⟩ ⟨1, 1, 1, 1⟩ 2
        sampleClip ⟨1, 1, 1, 1⟩).1 (by
          simp [SetClipRect, sampleClip, NRectf.Width]
          norm_num)).2.1.trans (by
          simp [SetClipRect, sampleClip, sampleContext, sampleExt, toImVec2]),
   ((draw_clip_wrapping sampleExt sampleWorld.display
        sampleContext 0 ⟨0, 0⟩ ⟨1, 1, 1, 1⟩ ⟨[], none⟩ ⟨0, 0⟩ ⟨5, 5⟩ ⟨1, 1, 1, 1⟩ 2
        sampleClip ⟨1, 1, 1, 1⟩).2 (by
          simp [sampleWorld, sampleDisplay, ZepDisplay_ImGui.ctor, NRectf.Width])).2.1.trans (by
          simp [sampleContext, sampleExt, toImVec2])⟩

/-- C8. `DrawChars` adds exactly one primitive to the draw list, a text
primitive, with or without a clip rectangle the same one: its font is
`GetFont(slot)`, its size `GetFontPointSize(slot)`, its position the given
position, its colour the packed given colour, and its text the given byte
range, which for a null end pointer runs from the begin pointer up to the
first zero byte. Nothing else in the toolkit state changes. -/
theorem DrawChars_text_primitive {n : Nat} (ext : Externals) (d : ZepDisplay_ImGui n)
    (g : ImGuiContext) (slot : Fin n) (pos : NVec2f) (col : NVec4f) (text : CharRange) :
    (DrawChars ext d g slot pos col text).DrawList.filter DrawCmd.isText
        = g.DrawList.filter DrawCmd.isText ++
          [DrawCmd.AddText (GetFont d g slot) (GetFontPointSize d g slot) ⟨pos.x, pos.y⟩
            (ext.ToPackedABGR col)
            (match text.stop with
             | none => text.mem.takeWhile (fun b => b != 0)
             | some e => text.mem.take e)]
    ∧ (DrawChars ext d g slot pos col text).DrawList.filter (fun c => !c.isClip)
        = g.DrawList.filter (fun c => !c.isClip) ++
          [DrawCmd.AddText (GetFont d g slot) (GetFontPointSize d g slot) ⟨pos.x, pos.y⟩
            (ext.ToPackedABGR col)
            (match text.stop with
             | none => text.mem.takeWhile (fun b => b != 0)
             | some e => text.mem.take e)]
    ∧ (DrawChars ext d g slot pos col text).Font = g.Font
    ∧ (DrawChars ext d g slot pos col text).fontMem = g.fontMem
    ∧ (DrawChars ext d g slot pos col text).Fonts = g.Fonts := by
  have hsize : (g.fontMem (GetFont d g slot)).Scale * (g.fontMem (GetFont d g slot)).FontSize
      = GetFontPointSize d g slot := by
    rw [GetFontPointSize_eq, mul_comm]
  have hpos : toImVec2 pos = ⟨pos.x, pos.y⟩ := rfl
  unfold DrawChars
  simp only [hsize, hpos, bytesBetween_resolveEnd]
  split <;>
    simp [List.filter_append, List.filter_cons, DrawCmd.isText, DrawCmd.isClip]

/-! ## Font registration -/

/-- C5, the claim as stated fails: slot 0 of the sample adapter is loaded from
`a.ttf`, answered with the font at address 1, and then from `missing.ttf`,
answered with the null handle. `GetFont(0)` is then not the handle of the
second load but the toolkit's current font, which is the font of the first
load. -/
theorem AddFont_twice_null_second_load :
    (AddFontFromFileTTF sampleExt sampleFirst.imgui "missing.ttf" 14 ⟨4, 4⟩
        sampleFirst.display.m_ranges).1 = nullFont
    ∧ (AddFontFromFileTTF sampleExt sampleWorld.imgui "a.ttf" 14 ⟨4, 4⟩
        sampleWorld.display.m_ranges).1 = 1
    ∧ GetFont (AddFont sampleExt sampleFirst 0 14 "missing.ttf").display
        (AddFont sampleExt sampleFirst 0 14 "missing.ttf").imgui 0
      ≠ (AddFontFromFileTTF sampleExt sampleFirst.imgui "missing.ttf" 14 ⟨4, 4⟩
          sampleFirst.display.m_ranges).1
    ∧ GetFont (AddFont sampleExt sampleFirst 0 14 "missing.ttf").display
        (AddFont sampleExt sampleFirst 0 14 "missing.ttf").imgui 0 = 1 := by
  decide

/-- C5, amended. After `AddFont(S, h1, path1)` followed by
`AddFont(S, h2, path2)` the table entry of `S` is the handle the toolkit
returned for the second load, whatever the first load returned. `GetFont(S)`
returns that handle when it is not null, and the toolkit's current font,
which the two loads left as it was, when it is null. -/
theorem AddFont_twice {n : Nat} (ext : Externals) (w : World n) (S : Fin n)
    (h1 h2 : ℚ) (path1 path2 : String) :
    (AddFont ext (AddFont ext w S h1 path1) S h2 path2).display.m_fonts S
        = (AddFontFromFileTTF ext (AddFont ext w S h1 path1).imgui path2 h2 ⟨4, 4⟩
            (AddFont ext w S h1 path1).display.m_ranges).1
    ∧ ((AddFontFromFileTTF ext (AddFont ext w S h1 path1).imgui path2 h2 ⟨4, 4⟩
            (AddFont ext w S h1 path1).display.m_ranges).1 ≠ nullFont →
        GetFont (AddFont ext (AddFont ext w S h1 path1) S h2 path2).display
            (AddFont ext (AddFont ext w S h1 path1) S h2 path2).imgui S
          = (AddFontFromFileTTF ext (AddFont ext w S h1 path1).imgui path2 h2 ⟨4, 4⟩
              (AddFont ext w S h1 path1).display.m_ranges).1)
    ∧ ((AddFontFromFileTTF ext (AddFont ext w S h1 path1).imgui path2 h2 ⟨4, 4⟩
            (AddFont ext w S h1 path1).display.m_ranges).1 = nullFont →
        GetFont (AddFont ext (AddFont ext w S h1 path1) S h2 path2).display
            (AddFont ext (AddFont ext w S h1 path1) S h2 path2).imgui S
          = w.imgui.Font)
    ∧ (AddFont ext (AddFont ext w S h1 path1) S h2 path2).imgui.Font = w.imgui.Font := by
  have hS : (AddFont ext (AddFont ext w S h1 path1) S h2 path2).display.m_fonts S
      = (AddFontFromFileTTF ext (AddFont ext w S h1 path1).imgui path2 h2 ⟨4, 4⟩
          (AddFont ext w S h1 path1).display.m_ranges).1 := by
    simp [AddFont]
  have hF : (AddFont ext (AddFont ext w S h1 path1) S h2 path2).imgui.Font = w.imgui.Font :=
    rfl
  refine ⟨hS, ?_, ?_, hF⟩
  · intro h
    unfold GetFont
    rw [hS, if_pos h]
  · intro h
    unfold GetFont
    rw [hS, if_neg (not_not.mpr h), hF]

/-- Witness for C5: slot 1 of the sample adapter is loaded from `a.ttf` and
then from `b.ttf`; the second load is answered with the font at address 2,
and slot 1 resolves to it. A second load from `missing.ttf` is answered with
the null handle, and the slot resolves to the current font. -/
theorem AddFont_twice_witness :
    GetFont (AddFont sampleExt (AddFont sampleExt sampleWorld 1 14 "a.ttf") 1 16 "b.ttf").display
        (AddFont sampleExt (AddFont sampleExt sampleWorld 1 14 "a.ttf") 1 16 "b.ttf").imgui 1
      = 2
    ∧ GetFont
        (AddFont sampleExt (AddFont sampleExt sampleWorld 1 14 "a.ttf") 1 16
          "missing.ttf").display
        (AddFont sampleExt (AddFont sampleExt sampleWorld 1 14 "a.ttf") 1 16
          "missing.ttf").imgui 1
      = sampleWorld.imgui.Font :=
  ⟨((AddFont_twice sampleExt sampleWorld 1 14 16 "a.ttf" "b.ttf").2.1 (by decide)).trans
      (by decide),
   (AddFont_twice sampleExt sampleWorld 1 14 16 "a.ttf" "missing.ttf").2.2.1 (by decide)⟩

/-- C10. `AddFont(S, h, path)` writes slot `S` of the font table only: every
other slot keeps its stored handle and resolves as before, the clip
rectangle, the font caches, the current font, the font memory and the draw
list are unchanged. The one load it requests has oversampling 4 and 4 and
the glyph ranges held by the adapter, which after any calls on a freshly
constructed adapter are the ranges built by the constructor from the default,
the Cyrillic and the Greek table. -/
theorem AddFont_frame {n : Nat} (ext : Externals) (w : World n) (S T : Fin n)
    (h : ℚ) (path : String) (fontCache0 : Fin n → ZepFontCache) (clipRect0 : NRectf)
    (g0 : ImGuiContext) (ops : List (Op n)) :
    (T ≠ S →
      (AddFont ext w S h path).display.m_fonts T = w.display.m_fonts T
      ∧ GetFont (AddFont ext w S h path).display (AddFont ext w S h path).imgui T
          = GetFont w.display w.imgui T)
    ∧ (AddFont ext w S h path).display.m_clipRect = w.display.m_clipRect
    ∧ (AddFont ext w S h path).display.m_fontCache = w.display.m_fontCache
    ∧ (AddFont ext w S h path).display.m_ranges = w.display.m_ranges
    ∧ (AddFont ext w S h path).imgui.Font = w.imgui.Font
    ∧ (AddFont ext w S h path).imgui.fontMem = w.imgui.fontMem
    ∧ (AddFont ext w S h path).imgui.DrawList = w.imgui.DrawList
    ∧ (AddFont ext w S h path).imgui.Fonts
        = w.imgui.Fonts ++ [⟨path, h, ⟨4, 4⟩, w.display.m_ranges⟩]
    ∧ (run ext ⟨ZepDisplay_ImGui.ctor ext n fontCache0 clipRect0, g0⟩ ops).display.m_ranges
        = ext.BuildRanges
            [ext.GetGlyphRangesDefault, ext.GetGlyphRangesCyrillic,
             [0x300, 0x52F, 0x1f00, 0x1fff, 0, 0]] := by
  refine ⟨?_, rfl, rfl, rfl, rfl, rfl, rfl, rfl, ?_⟩
  · intro hne
    have hT : (AddFont ext w S h path).display.m_fonts T = w.display.m_fonts T := by
      simp [AddFont, Function.update_noteq hne]
    refine ⟨hT, ?_⟩
    unfold GetFont
    rw [hT]
    rfl
  · rw [run_m_ranges]
    rfl

/-- Witness for C10: loading slot 1 of the sample adapter leaves slot 0 on the
font at address 1. -/
theorem AddFont_frame_witness :
    (AddFont sampleExt sampleFirst 1 14 "b.ttf").display.m_fonts 0 = 1
    ∧ GetFont (AddFont sampleExt sampleFirst 1 14 "b.ttf").display
        (AddFont sampleExt sampleFirst 1 14 "b.ttf").imgui 0 = 1 :=
  ⟨((AddFont_frame sampleExt sampleFirst 1 0 14 "b.ttf" (fun _ => ⟨false⟩)
        ⟨⟨0, 0⟩, ⟨0, 0⟩⟩ sampleContext []).1 (by decide)).1.trans (by decide),
   ((AddFont_frame sampleExt sampleFirst 1 0 14 "b.ttf" (fun _ => ⟨false⟩)
        ⟨⟨0, 0⟩, ⟨0, 0⟩⟩ sampleContext []).1 (by decide)).2.trans (by decide)⟩

/-! ## The clip rectangle -/

/-- C6. The clip rectangle is one current value. `SetClipRect(rc)` sets it to
`rc` and changes nothing else in the adapter or the toolkit; every other call
leaves it unchanged; hence after any sequence of calls the clip rectangle is
the argument of the most recent `SetClipRect`, and a draw call made then
pushes the corners of that rectangle when its width is not zero and pushes
nothing when its width is zero. -/
theorem clipRect_last_set {n : Nat} (ext : Externals) (w : World n)
    (before after : List (Op n)) (rc : NRectf) (op : Op n)
    (type : Fin n) (pos : NVec2f) (col : NVec4f) (text : CharRange)
    (start stop : NVec2f) (width : ℚ) (box : NRectf) :
    ((SetClipRect w rc).display.m_clipRect = rc
      ∧ (SetClipRect w rc).display.m_fonts = w.display.m_fonts
      ∧ (SetClipRect w rc).display.m_fontCache = w.display.m_fontCache
      ∧ (SetClipRect w rc).display.m_ranges = w.display.m_ranges
      ∧ (SetClipRect w rc).display.m_builder = w.display.m_builder
      ∧ (SetClipRect w rc).display.m_fontScale = w.display.m_fontScale
      ∧ (SetClipRect w rc).imgui = w.imgui)
    ∧ ((∀ rc', op ≠ Op.SetClipRect rc') →
        (step ext w op).display.m_clipRect = w.display.m_clipRect)
    ∧ ((∀ rc', Op.SetClipRect rc' ∉ after) →
        (run ext w (before ++ Op.SetClipRect rc :: after)).display.m_clipRect = rc
        ∧ (rc.Width ≠ 0 →
            (step ext (run ext w (before ++ Op.SetClipRect rc :: after))
                (Op.DrawChars type pos col text)).imgui.DrawList
              = (run ext w (before ++ Op.SetClipRect rc :: after)).imgui.DrawList ++
                [DrawCmd.PushClipRect (toImVec2 rc.topLeftPx) (toImVec2 rc.bottomRightPx),
                 DrawCmd.AddText
                   (GetFont (run ext w (before ++ Op.SetClipRect rc :: after)).display
                     (run ext w (before ++ Op.SetClipRect rc :: after)).imgui type)
                   (GetFontPointSize (run ext w (before ++ Op.SetClipRect rc :: after)).display
                     (run ext w (before ++ Op.SetClipRect rc :: after)).imgui type)
                   (toImVec2 pos) (ext.ToPackedABGR col)
                   (bytesBetween text.mem (resolveEnd text)),
                 DrawCmd.PopClipRect]
            ∧ (step ext (run ext w (before ++ Op.SetClipRect rc :: after))
                (Op.DrawLine start stop col width)).imgui.DrawList
              = (run ext w (before ++ Op.SetClipRect rc :: after)).imgui.DrawList ++
                [DrawCmd.PushClipRect (toImVec2 rc.topLeftPx) (toImVec2 rc.bottomRightPx),
                 DrawCmd.AddLine (toImVec2 start) (toImVec2 stop) (ext.ToPackedABGR col) width,
                 DrawCmd.PopClipRect]
            ∧ (step ext (run ext w (before ++ Op.SetClipRect rc :: after))
                (Op.DrawRectFilled box col)).imgui.DrawList
              = (run ext w (before ++ Op.SetClipRect rc :: after)).imgui.DrawList ++
                [DrawCmd.PushClipRect (toImVec2 rc.topLeftPx) (toImVec2 rc.bottomRightPx),
                 DrawCmd.AddRectFilled (toImVec2 box.topLeftPx) (toImVec2 box.bottomRightPx)
                   (ext.ToPackedABGR col),
                 DrawCmd.PopClipRect])
        ∧ (rc.Width = 0 →
            (step ext (run ext w (before ++ Op.SetClipRect rc :: after))
                (Op.DrawLine start stop col width)).imgui.DrawList
              = (run ext w (before ++ Op.SetClipRect rc :: after)).imgui.DrawList ++
                [DrawCmd.AddLine (toImVec2 start) (toImVec2 stop) (ext.ToPackedABGR col)
                  width])) := by
  refine ⟨⟨rfl, rfl, rfl, rfl, rfl, rfl, rfl⟩, step_m_clipRect ext w op, ?_⟩
  intro hafter
  have hclip : (run ext w (before ++ Op.SetClipRect rc :: after)).display.m_clipRect = rc := by
    rw [run_append, run_cons, run_m_clipRect ext after _ hafter]
    rfl
  refine ⟨hclip, ?_, ?_⟩
  · intro hw
    simp [step, DrawChars, DrawLine, DrawRectFilled, hclip, hw, GetFontPointSize_eq, mul_comm]
  · intro hw
    simp [step, DrawLine, hclip, hw]

/-- Witness for C6: in the sample adapter a first `SetClipRect` with a
zero-width rectangle, a font load, a second `SetClipRect` with a rectangle of
width 100, then a resize and a font push leave the second rectangle current. -/
theorem clipRect_last_set_witness :
    (run sampleExt sampleWorld
        ([Op.SetClipRect ⟨⟨5, 5⟩, ⟨5, 9⟩⟩, Op.AddFont 0 14 "a.ttf"] ++
          Op.SetClipRect sampleClip ::
            [Op.SetFontPointSize 0 20, Op.PushFont 0])).display.m_clipRect
      = sampleClip
    ∧ (step sampleExt sampleWorld (Op.PushFont 2)).display.m_clipRect
      = sampleWorld.display.m_clipRect
    ∧ (step sampleExt
        (run sampleExt sampleWorld ([] ++ Op.SetClipRect sampleClip :: [Op.PushFont 0]))
        (Op.DrawRectFilled ⟨⟨1, 2⟩, ⟨3, 4⟩⟩ ⟨1, 1, 1, 1⟩)).imgui.DrawList
      = [DrawCmd.PushClipRect ⟨10, 20⟩ ⟨110, 220⟩,
         DrawCmd.AddRectFilled ⟨1, 2⟩ ⟨3, 4⟩ 4278190080,
         DrawCmd.PopClipRect] :=
  ⟨((clipRect_last_set sampleExt sampleWorld
        [Op.SetClipRect ⟨⟨5, 5⟩, ⟨5, 9⟩⟩, Op.AddFont 0 14 "a.ttf"]
        [Op.SetFontPointSize 0 20, Op.PushFont 0] sampleClip Op.PopFont
        0 ⟨0, 0⟩ ⟨1, 1, 1, 1⟩ ⟨[], none⟩ ⟨0, 0⟩ ⟨1, 1⟩ 1 sampleClip).2.2
        (by intro rc' hmem; simp at hmem)).1,
   (clipRect_last_set sampleExt sampleWorld [] [] sampleClip (Op.PushFont 2)
        0 ⟨0, 0⟩ ⟨1, 1, 1, 1⟩ ⟨[], none⟩ ⟨0, 0⟩ ⟨1, 1⟩ 1 sampleClip).2.1
        (by intro rc' e; cases e),
   ((((clipRect_last_set sampleExt sampleWorld [] [Op.PushFont 0] sampleClip Op.PopFont
        0 ⟨0, 0⟩ ⟨1, 1, 1, 1⟩ ⟨[], none⟩ ⟨0, 0⟩ ⟨1, 1⟩ 1 ⟨⟨1, 2⟩, ⟨3, 4⟩⟩).2.2
        (by intro rc' hmem; simp at hmem)).2.1
        (by simp [sampleClip, NRectf.Width]; norm_num)).2.2).trans
        (by simp [run, step, SetClipRect, PushFont, sampleExt, sampleWorld, sampleContext,
              sampleClip, toImVec2])⟩

end Zep
